import Mathlib

/-!
Verification development for the NuttyOwl reminder bot.

This file gives a shallow embedding of the repository's core components and
proves or refutes the frozen specification claims against it.

Embedded source files:
  * `models.py`    — the `Event` record (and the `Clipper` record that
    `storage.py` and `bot.py` import; `models.py` itself does not define it,
    so `Clipper` below is modelled from the spec).
  * `storage.py`   — the `Storage` class: a JSON-persisted mapping
    `"HH:MM" -> Event` (plus a clippers mapping), guarded by a reentrant
    lock.  Mutating methods persist the whole snapshot synchronously.
  * `scheduler.py` — `UtcScheduler`: a 30-second polling loop (`_run`/`_tick`)
    that clears the store at UTC midnight and fires events whose `HH:MM`
    matches the current zero-padded UTC minute.
  * `cogs/events.py` — `_validate_hhmm` (a `strptime("%H:%M")` check), the
    countdown-target computation of `_schedule_ping`, its inner `ping`
    coroutine, and the `addevent` / `listevents` commands.

Modelling conventions:
  * Instants are seconds since an arbitrary UTC epoch (`Nat`); calendar dates
    are day indices `now / 86400` (the ISO rendering used by
    `_utc_midnight_key` is injective on dates, so the day index is compared
    directly).
  * Python exceptions are explicit: functions that can raise return a result
    carrying either a value or a `PyError` together with the state as mutated
    up to the raise point.
  * A Python `dict` is an insertion-ordered association list with unique
    keys (`PyDict`); `dict[k] = v` replaces in place, `del dict[k]` removes.
  * Attribute lookup on the `Storage` object is modelled explicitly, because
    `scheduler.py` and `cogs/events.py` invoke methods (`clear`, `get_map`,
    `remove`, `all`, `upsert`) that the `Storage` class in `storage.py` does
    not define — in Python these calls raise `AttributeError`.
    `storageMethods` is the literal list of methods `class Storage` defines.
  * Message sending and the discord client are external collaborators; they
    affect no embedded state and are abstracted to their outcomes
    (success / a raised error).
-/

namespace NuttyOwl

/-- Python exceptions relevant to the embedded code paths. -/
inductive PyError where
  | attributeError (attr : String)
  | cancelledError
  | valueError (msg : String)
  | notFound
  | httpError (msg : String)
  deriving DecidableEq, Repr

/-- A Python `dict` with `String` keys: an insertion-ordered association
list whose keys are unique (the uniqueness is an invariant, proved below for
the operations the source uses). -/
abbrev PyDict (α : Type) := List (String × α)

/-- `m.get(k)` / `m[k]` on a Python dict. -/
def dictLookup {α : Type} (k : String) : PyDict α → Option α
  | [] => none
  | (k', v) :: rest => if k' = k then some v else dictLookup k rest

/-- `k in m` on a Python dict. -/
def dictMember {α : Type} (k : String) (m : PyDict α) : Bool :=
  (dictLookup k m).isSome

/-- `m[k] = v` on a Python dict: replaces the value in place if the key is
present, otherwise appends the new entry. -/
def dictInsert {α : Type} (k : String) (v : α) : PyDict α → PyDict α
  | [] => [(k, v)]
  | (k', v') :: rest =>
    if k' = k then (k', v) :: rest else (k', v') :: dictInsert k v rest

/-- `del m[k]` on a Python dict (under the unique-key invariant this drops
the single entry stored at `k`). -/
def dictRemove {α : Type} (k : String) : PyDict α → PyDict α
  | [] => []
  | (k', v') :: rest =>
    if k' = k then dictRemove k rest else (k', v') :: dictRemove k rest

/-- `list(m.keys())` on a Python dict. -/
def dictKeys {α : Type} : PyDict α → List String
  | [] => []
  | (k, _) :: rest => k :: dictKeys rest

/-- Number of entries stored under key `k`. -/
def countKey {α : Type} (k : String) (m : PyDict α) : Nat :=
  (m.filter (fun p => p.1 == k)).length

/-- `models.py` — `@dataclass class Event`: `time_hhmm`, `role_id`,
`description`. -/
structure Event where
  time_hhmm : String
  role_id : Int
  description : String
  deriving DecidableEq, Repr

/-- Modelled from the spec: `models.py` does not define the `Clipper` record
that `storage.py` (`from models import Event, Clipper`) and `bot.py` import;
the spec describes clippers as name-to-text records with a `command_name`
and a `description`, which matches every use site in `bot.py`. -/
structure Clipper where
  command_name : String
  description : String
  deriving DecidableEq, Repr

/-- Contents of one durable JSON file as `Storage.load` can encounter them:
absent on disk, present but failing to deserialize (malformed JSON or a
record from which the dataclass cannot be rebuilt), or a well-formed
snapshot. -/
inductive FileState (α : Type) where
  | missing
  | malformed
  | snapshot (m : PyDict α)
  deriving DecidableEq, Repr

/-- `storage.py` — the state owned by a `Storage` object: the in-memory
`_events` and `_clippers` dicts together with the two backing files. -/
structure Storage where
  events : PyDict Event
  clippers : PyDict Clipper
  eventsFile : FileState Event
  clippersFile : FileState Clipper
  deriving DecidableEq, Repr

/-- The methods `class Storage` in `storage.py` actually defines (copied
from the class body).  Note there is no `clear`, `get_map`, `remove`, `all`
or `upsert`: `scheduler.py` and `cogs/events.py` call those names and get
`AttributeError`. -/
def storageMethods : List String :=
  ["load", "save", "all_events", "get_events_map", "upsert_event",
   "remove_event", "clear_events", "clear_clippers", "all_clippers",
   "get_clipper", "upsert_clipper", "remove_clipper"]

/-- Python attribute lookup on a `Storage` object, restricted to methods. -/
def storageHasAttr (name : String) : Bool :=
  storageMethods.contains name

/-- `Storage.save`: serializes both in-memory dicts and overwrites both
files (whole-snapshot persistence; `to_dict`/`from_dict` round-trip, so the
file is modelled as holding the dict itself). -/
def Storage.save (st : Storage) : Storage :=
  { st with
    eventsFile := FileState.snapshot st.events,
    clippersFile := FileState.snapshot st.clippers }

/-- Reading and deserializing the events file inside `Storage.load`'s `try`
block (`json.load` plus `Event.from_dict` per entry); raising on a
malformed file.  The missing-file case is checked before the `try` in the
source, so reaching `open` with a missing file would also raise. -/
def readEventsFile : FileState Event → Except PyError (PyDict Event)
  | FileState.missing => Except.error (PyError.valueError "FileNotFoundError")
  | FileState.malformed => Except.error (PyError.valueError "deserialize")
  | FileState.snapshot m => Except.ok m

/-- Reading and deserializing the clippers file inside `Storage.load`. -/
def readClippersFile : FileState Clipper → Except PyError (PyDict Clipper)
  | FileState.missing => Except.error (PyError.valueError "FileNotFoundError")
  | FileState.malformed => Except.error (PyError.valueError "deserialize")
  | FileState.snapshot m => Except.ok m

/-- `Storage.load`: for each file, if it does not exist the mapping becomes
empty; otherwise the contents are parsed inside `try ... except Exception`,
falling back to an empty mapping on any failure.  No exception escapes. -/
def Storage.load (st : Storage) : Storage :=
  { st with
    events :=
      if st.eventsFile = FileState.missing then []
      else
        match readEventsFile st.eventsFile with
        | Except.ok m => m
        | Except.error _ => [],
    clippers :=
      if st.clippersFile = FileState.missing then []
      else
        match readClippersFile st.clippersFile with
        | Except.ok m => m
        | Except.error _ => [] }

/-- `Storage.all_events`: `list(self._events.values())`. -/
def Storage.all_events (st : Storage) : List Event :=
  st.events.map (fun p => p.2)

/-- `Storage.get_events_map`: `dict(self._events)` (a copy). -/
def Storage.get_events_map (st : Storage) : PyDict Event :=
  st.events

/-- `Storage.upsert_event`: `self._events[event.time_hhmm] = event` followed
by `self.save()`. -/
def Storage.upsert_event (st : Storage) (e : Event) : Storage :=
  Storage.save { st with events := dictInsert e.time_hhmm e st.events }

/-- `Storage.remove_event`: remembers whether the key existed; if so deletes
it and saves; returns the flag.  The returned pair is (state after the
call, returned bool). -/
def Storage.remove_event (st : Storage) (hhmm : String) : Storage × Bool :=
  if dictMember hhmm st.events then
    (Storage.save { st with events := dictRemove hhmm st.events }, true)
  else
    (st, false)

/-- `Storage.clear_events`: `self._events.clear()` followed by
`self.save()`. -/
def Storage.clear_events (st : Storage) : Storage :=
  Storage.save { st with events := [] }

/-- Numeric value of an ASCII digit character, mirroring what Python's
`re` module `\d` (restricted to ASCII input) accepts inside `strptime`. -/
def digitVal (c : Char) : Option Nat :=
  if decide ('0' ≤ c) && decide (c ≤ '9') then some (c.toNat - 48) else none

/-- Value of a one- or two-digit group, the shapes the `strptime`
directives `%H` (`2[0-3]|[0-1]\d|\d`) and `%M` (`[0-5]\d|\d`) can match. -/
def digitsVal : List Char → Option Nat
  | [c] => digitVal c
  | [c1, c2] =>
    match digitVal c1, digitVal c2 with
    | some d1, some d2 => some (10 * d1 + d2)
    | _, _ => none
  | _ => none

/-- Split a character list at every colon (the literal `:` of the
`"%H:%M"` format). -/
def splitColon : List Char → List (List Char)
  | [] => [[]]
  | c :: rest =>
    if c = ':' then [] :: splitColon rest
    else
      match splitColon rest with
      | [] => [[c]]
      | g :: gs => (c :: g) :: gs

/-- `datetime.strptime(s, "%H:%M")` as used by `_validate_hhmm` and
`_schedule_ping` in `cogs/events.py`: the hour group is one digit (any) or
two digits `00`–`23`, the minute group is one digit (any) or two digits
`00`–`59`, separated by a single `:`, with the whole string consumed
(strptime rejects unconverted data).  Returns the parsed (hour, minute). -/
def parse_hhmm (s : String) : Option (Nat × Nat) :=
  match splitColon s.toList with
  | [hs, ms] =>
    match digitsVal hs, digitsVal ms with
    | some h, some m =>
      if (hs.length == 1 || decide (h ≤ 23)) &&
         (ms.length == 1 || decide (m ≤ 59)) then
        some (h, m)
      else none
    | _, _ => none
  | _ => none

/-- `_validate_hhmm` in `cogs/events.py`: `strptime(hhmm, "%H:%M")`
succeeds. -/
def validate_hhmm (s : String) : Bool :=
  (parse_hhmm s).isSome

def secondsPerDay : Nat := 86400

/-- The polling cadence of `UtcScheduler._run` (`asyncio.sleep(30)`). -/
def cadenceSeconds : Nat := 30

/-- The ASCII digit character for `d < 10`. -/
def digitChar (d : Nat) : Char := Char.ofNat (48 + d)

/-- Two-digit zero-padded rendering, as produced by `strftime` field
directives such as `%H` and `%M` for values below 100. -/
def pad2 (n : Nat) : String :=
  String.mk [digitChar (n / 10), digitChar (n % 10)]

/-- `UtcScheduler._utc_now_hhmm`: `datetime.now(timezone.utc).strftime("%H:%M")`
— the current UTC hour and minute, each zero-padded to two digits. -/
def utcNowHHMM (now : Nat) : String :=
  pad2 (now % secondsPerDay / 3600) ++ ":" ++ pad2 (now % secondsPerDay % 3600 / 60)

/-- `UtcScheduler._utc_midnight_key`: the current UTC calendar date
(modelled as the day index; the ISO date string the source compares is
injective on dates). -/
def utcMidnightKey (now : Nat) : Nat :=
  now / secondsPerDay

/-- The scheduler state: `_last_midnight` plus the shared `Storage`. -/
structure SchedState where
  lastMidnight : Nat
  storage : Storage
  deriving DecidableEq, Repr

/-- Outcome of one `UtcScheduler._tick` call: normal completion, or an
exception raised part-way with the state as mutated up to the raise. -/
inductive TickResult where
  | ok (s : SchedState)
  | raised (s : SchedState) (e : PyError)
  deriving DecidableEq, Repr

/-- The second half of `UtcScheduler._tick` (from `hhmm = self._utc_now_hhmm()`
on): fetch the events map via `self.storage.get_map()`, return if the
current minute has no entry, otherwise fire the event (`_fire_event`
touches no embedded state: it only attempts message sends, catching
delivery errors per guild) and call `self.storage.remove(hhmm)`.  Both
`get_map` and `remove` are attribute lookups on `Storage`. -/
def tickLookup (now : Nat) (s : SchedState) : TickResult :=
  if storageHasAttr "get_map" then
    let m := s.storage.get_events_map
    let hhmm := utcNowHHMM now
    if dictMember hhmm m then
      if storageHasAttr "remove" then
        TickResult.ok { s with storage := (s.storage.remove_event hhmm).1 }
      else TickResult.raised s (PyError.attributeError "remove")
    else TickResult.ok s
  else TickResult.raised s (PyError.attributeError "get_map")

/-- `UtcScheduler._tick`: if the UTC date key differs from `_last_midnight`,
update `_last_midnight` and call `self.storage.clear()`; then fall through
to the current-minute lookup. -/
def tick (now : Nat) (s : SchedState) : TickResult :=
  let key := utcMidnightKey now
  if key = s.lastMidnight then tickLookup now s
  else
    let s1 := { s with lastMidnight := key }
    if storageHasAttr "clear" then
      tickLookup now { s1 with storage := s1.storage.clear_events }
    else TickResult.raised s1 (PyError.attributeError "clear")

/-- Outcome of one iteration body inside `UtcScheduler._run`'s `while True`
(the `await self._tick()`): it completed, or it raised. -/
inductive TickOutcome where
  | completed
  | raised (e : PyError)
  deriving DecidableEq, Repr

/-- Fate of the `_run` loop task over a trace of tick outcomes. -/
inductive LoopResult where
  | running
  | stoppedSilently
  | crashed (e : PyError)
  deriving DecidableEq, Repr

/-- `UtcScheduler._run`: `try: while True: await self._tick(); await
asyncio.sleep(30)` with a single `except asyncio.CancelledError: pass`.
A completed tick is followed by the next iteration; `CancelledError` is
caught and the task ends silently; any other exception escapes the `try`
and terminates the task. -/
def runLoop : List TickOutcome → LoopResult
  | [] => LoopResult.running
  | TickOutcome.completed :: rest => runLoop rest
  | TickOutcome.raised PyError.cancelledError :: _ => LoopResult.stoppedSilently
  | TickOutcome.raised e :: _ => LoopResult.crashed e

/-- `combine(today, time)` in `EventsCog._schedule_ping`:
`datetime(now.year, now.month, now.day, event_time.hour, event_time.minute)`
— midnight of the current UTC day plus the event's hour and minute. -/
def combineToday (now h m : Nat) : Nat :=
  now / secondsPerDay * secondsPerDay + h * 3600 + m * 60

/-- The countdown target of `EventsCog._schedule_ping`:
`target_time = combine(today, event_time) - delta`, then
`if target_time < now: target_time += timedelta(days=1)`. -/
def countdownTarget (now h m deltaSeconds : Nat) : Int :=
  let t : Int := (combineToday now h m : Int) - (deltaSeconds : Int)
  if t < (now : Int) then t + (secondsPerDay : Int) else t

/-- A guild role as the inner `ping` coroutine of `_schedule_ping` sees it
(only mentionability influences control flow; the message text is
external). -/
structure RoleTarget where
  mentionable : Bool
  deriving DecidableEq, Repr

/-- A guild member as the inner `ping` coroutine sees it. -/
structure MemberTarget where
  bot : Bool
  deriving DecidableEq, Repr

/-- The external collaborators the inner `ping` coroutine consults: the
role-config file (`get_roles_config().get("role_id")`), the guild's
`get_role` and `fetch_member` lookups (the latter can raise), and the
outcome of the reminder `ctx.send` in the resolved branch (`none` =
delivered, `some e` = the send raised `e`). -/
structure PingCtx where
  roleConfig : Option Int
  getRole : Int → Option RoleTarget
  fetchMember : Int → Except PyError MemberTarget
  sendOutcome : Option PyError

/-- Result of a command-handler body: the storage state afterwards, plus
whether an exception escaped. -/
inductive CmdResult where
  | ok (st : Storage)
  | raised (st : Storage) (e : PyError)
  deriving DecidableEq, Repr

/-- The storage state a `CmdResult` carries. -/
def CmdResult.storageOf : CmdResult → Storage
  | CmdResult.ok st => st
  | CmdResult.raised st _ => st

/-- The exception classes the inner `ping` coroutine's handlers catch
(`except ValueError` and `except discord.NotFound`, both of which reply and
`return` before the removal line). -/
def isCaughtInPing : PyError → Bool
  | PyError.notFound => true
  | PyError.valueError _ => true
  | _ => false

/-- The tail of the inner `ping` coroutine once a target was resolved: the
reminder `ctx.send` (whose failure is either caught by the `except`
handlers, which `return`, or propagates), and — only if it completed and
`delta == timedelta(minutes=0)` — the call `self.storage.remove(time)`,
an attribute lookup on `Storage`. -/
def pingSend (ctx : PingCtx) (deltaSeconds : Nat) (time : String)
    (st : Storage) : CmdResult :=
  match ctx.sendOutcome with
  | some e =>
    if isCaughtInPing e then CmdResult.ok st else CmdResult.raised st e
  | none =>
    if deltaSeconds = 0 then
      if storageHasAttr "remove" then CmdResult.ok (st.remove_event time).1
      else CmdResult.raised st (PyError.attributeError "remove")
    else CmdResult.ok st

/-- The inner `ping` coroutine of `EventsCog._schedule_ping`: bail out (with
an inline reply) when no `role_id` is configured or it is falsy; otherwise
try `guild.get_role`, falling back to `guild.fetch_member`; a raised
`NotFound` (or `ValueError`) is caught and the coroutine returns before any
removal; with a resolved target it sends the reminder and, for the
zero-offset task only, calls `self.storage.remove(time)`. -/
def ping (ctx : PingCtx) (time : String) (deltaSeconds : Nat)
    (st : Storage) : CmdResult :=
  match ctx.roleConfig with
  | none => CmdResult.ok st
  | some rid =>
    if rid = 0 then CmdResult.ok st
    else
      match ctx.getRole rid with
      | some _ => pingSend ctx deltaSeconds time st
      | none =>
        match ctx.fetchMember rid with
        | Except.ok _ => pingSend ctx deltaSeconds time st
        | Except.error e =>
          if isCaughtInPing e then CmdResult.ok st
          else CmdResult.raised st e

/-- Insert one event into a list sorted by `time_hhmm` (ascending). -/
def sortedInsert (e : Event) : List Event → List Event
  | [] => [e]
  | x :: xs =>
    if e.time_hhmm ≤ x.time_hhmm then e :: x :: xs
    else x :: sortedInsert e xs

/-- `sorted(events, key=lambda e: e.time_hhmm)`. -/
def sortByTime : List Event → List Event
  | [] => []
  | x :: xs => sortedInsert x (sortByTime xs)

/-- Result of the `listevents` command body: the sorted event list it
renders, or the exception that escaped. -/
inductive ListResult where
  | ok (events : List Event)
  | raised (e : PyError)
  deriving DecidableEq, Repr

/-- `EventsCog.list_events`: `sorted(self.storage.all(), key=lambda e:
e.time_hhmm)` — `all` is an attribute lookup on `Storage` — then one line
per event with its time, target id and description. -/
def list_events (st : Storage) : ListResult :=
  if storageHasAttr "all" then ListResult.ok (sortByTime st.all_events)
  else ListResult.raised (PyError.attributeError "all")

/-- `EventsCog.add_event`: reject an invalid `HH:MM` (inline reply, no state
change); require a configured, truthy `role_id`; build
`Event(time_hhmm=time, role_id=role_id, description=description.strip())`
and call `self.storage.upsert(event)`, an attribute lookup on `Storage`.
The countdown tasks armed afterwards are separate `ping` coroutines. -/
def add_event (time description : String) (roleConfig : Option Int)
    (st : Storage) : CmdResult :=
  if validate_hhmm time = false then CmdResult.ok st
  else
    match roleConfig with
    | none => CmdResult.ok st
    | some rid =>
      if rid = 0 then CmdResult.ok st
      else
        let ev : Event :=
          { time_hhmm := time, role_id := rid, description := description.trim }
        if storageHasAttr "upsert" then CmdResult.ok (st.upsert_event ev)
        else CmdResult.raised st (PyError.attributeError "upsert")

/-- An empty, never-persisted store (fresh `Storage` before any save). -/
def emptyStorage : Storage :=
  { events := [], clippers := [],
    eventsFile := FileState.missing, clippersFile := FileState.missing }

/-- A sample event at `09:00`, as the `addevent` command would build it. -/
def ev9 : Event :=
  { time_hhmm := "09:00", role_id := 5, description := "standup" }

/-- A store holding `ev9`, with both files in sync (state right after the
upsert that created `ev9`). -/
def stWith9 : Storage :=
  { events := [("09:00", ev9)], clippers := [],
    eventsFile := FileState.snapshot [("09:00", ev9)],
    clippersFile := FileState.snapshot [] }

/-- A sample event registered under the non-zero-padded key `"9:30"`. -/
def evNonPadded : Event :=
  { time_hhmm := "9:30", role_id := 5, description := "a" }

/-- A sample event registered under the zero-padded key `"09:30"`. -/
def evPadded : Event :=
  { time_hhmm := "09:30", role_id := 5, description := "b" }

/-- A ping context whose target resolution and reminder send both succeed. -/
def ctxResolved : PingCtx :=
  { roleConfig := some 5,
    getRole := fun _ => some { mentionable := true },
    fetchMember := fun _ => Except.error PyError.notFound,
    sendOutcome := none }

/-! ### Dictionary lemmas -/

theorem dictLookup_dictInsert_self {α : Type} (k : String) (v : α)
    (m : PyDict α) : dictLookup k (dictInsert k v m) = some v := by
  induction m with
  | nil => simp [dictInsert, dictLookup]
  | cons p rest ih =>
    obtain ⟨k', v'⟩ := p
    by_cases h : k' = k
    · simp [dictInsert, dictLookup, h]
    · simp [dictInsert, dictLookup, h, ih]

theorem dictLookup_dictRemove_self {α : Type} (k : String) (m : PyDict α) :
    dictLookup k (dictRemove k m) = none := by
  induction m with
  | nil => simp [dictRemove, dictLookup]
  | cons p rest ih =>
    obtain ⟨k', v'⟩ := p
    by_cases h : k' = k
    · simp [dictRemove, h, ih]
    · simp [dictRemove, dictLookup, h, ih]

theorem dictMember_dictRemove_self {α : Type} (k : String) (m : PyDict α) :
    dictMember k (dictRemove k m) = false := by
  simp [dictMember, dictLookup_dictRemove_self]

theorem mem_dictKeys_dictInsert {α : Type} (x k : String) (v : α)
    (m : PyDict α) :
    x ∈ dictKeys (dictInsert k v m) ↔ x ∈ dictKeys m ∨ x = k := by
  induction m with
  | nil => simp [dictInsert, dictKeys]
  | cons p rest ih =>
    obtain ⟨k', v'⟩ := p
    by_cases h : k' = k
    · subst h
      simp [dictInsert, dictKeys]
      tauto
    · simp [dictInsert, dictKeys, h] at ih ⊢
      tauto

theorem nodup_dictKeys_dictInsert {α : Type} (k : String) (v : α)
    (m : PyDict α) (hm : (dictKeys m).Nodup) :
    (dictKeys (dictInsert k v m)).Nodup := by
  induction m with
  | nil => simp [dictInsert, dictKeys]
  | cons p rest ih =>
    obtain ⟨k', v'⟩ := p
    rw [dictKeys, List.nodup_cons] at hm
    by_cases h : k' = k
    · rw [dictInsert, if_pos h, dictKeys, List.nodup_cons]
      exact hm
    · have hrest := ih hm.2
      have hk' : k' ∉ dictKeys (dictInsert k v rest) := by
        intro hx
        rcases (mem_dictKeys_dictInsert k' k v rest).mp hx with hx' | hx'
        · exact hm.1 hx'
        · exact h hx'
      rw [dictInsert, if_neg h, dictKeys, List.nodup_cons]
      exact ⟨hk', hrest⟩

theorem countKey_eq_zero_of_not_mem {α : Type} (k : String) (m : PyDict α)
    (h : k ∉ dictKeys m) : countKey k m = 0 := by
  induction m with
  | nil => rfl
  | cons p rest ih =>
    obtain ⟨k', v'⟩ := p
    rw [dictKeys] at h
    simp at h
    push_neg at h
    have hne : (k' == k) = false := by
      simp [Ne.symm h.1]
    simp [countKey, List.filter_cons, hne] at ih ⊢
    exact ih h.2

theorem countKey_dictInsert_self {α : Type} (k : String) (v : α)
    (m : PyDict α) (hm : (dictKeys m).Nodup) :
    countKey k (dictInsert k v m) = 1 := by
  induction m with
  | nil => simp [dictInsert, countKey, List.filter_cons]
  | cons p rest ih =>
    obtain ⟨k', v'⟩ := p
    simp [dictKeys] at hm
    by_cases h : k' = k
    · subst h
      have : countKey k' rest = 0 := countKey_eq_zero_of_not_mem k' rest hm.1
      simp [dictInsert, countKey, List.filter_cons] at this ⊢
      exact this
    · have hne : (k' == k) = false := by simp [h]
      have := ih hm.2
      simp [dictInsert, h, countKey, List.filter_cons, hne] at this ⊢
      exact this

/-! ### Claim theorems -/

/-- C5, counterexample: `_validate_hhmm` accepts both `"9:30"` and
`"09:30"`, `strptime` parses both to the same wall-clock minute 09:30, yet
the two strings are distinct store keys, so adding one event under each
leaves the store with two events for that single minute — refuting "at most
one Event per distinct wall-clock minute" and "adding a second event at the
same HH:MM minute overwrites the first". -/
theorem c5_overwrite_counterexample :
    validate_hhmm "9:30" = true
    ∧ validate_hhmm "09:30" = true
    ∧ parse_hhmm "9:30" = some (9, 30)
    ∧ parse_hhmm "09:30" = some (9, 30)
    ∧ (("9:30" : String) == "09:30") = false
    ∧ ((emptyStorage.upsert_event evNonPadded).upsert_event evPadded).events.length = 2
    ∧ dictMember "9:30" ((emptyStorage.upsert_event evNonPadded).upsert_event evPadded).events = true
    ∧ dictMember "09:30" ((emptyStorage.upsert_event evNonPadded).upsert_event evPadded).events = true := by
  decide

/-- C5, amended: the store holds at most one Event per `time_of_day`
string key — `upsert_event` preserves key uniqueness, and an add with the
identical key string overwrites the previous event, leaving exactly one
entry under that key (distinct accepted spellings of the same wall-clock
minute, such as `"9:30"` and `"09:30"`, remain separate entries). -/
theorem c5_overwrite_amended : ∀ (st : Storage) (e : Event),
    (dictKeys st.events).Nodup →
      (dictKeys (st.upsert_event e).events).Nodup
      ∧ dictLookup e.time_hhmm (st.upsert_event e).events = some e
      ∧ countKey e.time_hhmm (st.upsert_event e).events = 1 := by
  intro st e hm
  have hev : (st.upsert_event e).events = dictInsert e.time_hhmm e st.events := rfl
  rw [hev]
  exact ⟨nodup_dictKeys_dictInsert _ _ _ hm,
    dictLookup_dictInsert_self _ _ _,
    countKey_dictInsert_self _ _ _ hm⟩

/-- C5, witness for the amended theorem at a concrete input. -/
theorem c5_overwrite_amended_witness :
    (dictKeys emptyStorage.events).Nodup
    ∧ dictLookup "9:30" (emptyStorage.upsert_event evNonPadded).events
        = some evNonPadded :=
  ⟨by decide, (c5_overwrite_amended emptyStorage evNonPadded (by decide)).2.1⟩

/-- C6: `Storage.load` never raises — the events part of the `try` body is
guarded by `except Exception` — and it replaces the in-memory events
mapping with the empty mapping when the file is missing or fails to
deserialize, and with exactly the persisted snapshot otherwise. -/
theorem c6_load_total : ∀ (st : Storage) (m : PyDict Event),
    (Storage.load { st with eventsFile := FileState.missing }).events = []
    ∧ (Storage.load { st with eventsFile := FileState.malformed }).events = []
    ∧ (Storage.load { st with eventsFile := FileState.snapshot m }).events = m := by
  intro st m
  refine ⟨rfl, rfl, rfl⟩

/-- C7: `remove_event` returns `true` exactly when the key is present; the
event is then deleted and the snapshot persisted before returning; on an
absent key it returns `false` and the whole storage state (in-memory and
persisted) is unchanged.  After the call the key is never present. -/
theorem c7_remove_contract : ∀ (st : Storage) (hhmm : String),
    (st.remove_event hhmm).2 = dictMember hhmm st.events
    ∧ dictMember hhmm (st.remove_event hhmm).1.events = false
    ∧ (dictMember hhmm st.events = true →
        (st.remove_event hhmm).1.eventsFile
          = FileState.snapshot (st.remove_event hhmm).1.events)
    ∧ (dictMember hhmm st.events = false → (st.remove_event hhmm).1 = st) := by
  intro st hhmm
  by_cases h : dictMember hhmm st.events
  · refine ⟨by simp [Storage.remove_event, h], ?_, ?_, ?_⟩
    · simp [Storage.remove_event, h, Storage.save,
        dictMember_dictRemove_self]
    · intro _
      simp [Storage.remove_event, h, Storage.save]
    · intro hf
      rw [h] at hf
      cases hf
  · have h' : dictMember hhmm st.events = false := by
      simpa using h
    refine ⟨by simp [Storage.remove_event, h'], ?_, ?_, ?_⟩
    · simp [Storage.remove_event, h']
    · intro hf
      rw [h'] at hf
      cases hf
    · intro _
      simp [Storage.remove_event, h']

/-- C7, witness: the present-key branch of the contract at a concrete
store. -/
theorem c7_remove_contract_witness :
    dictMember "09:00" stWith9.events = true
    ∧ (stWith9.remove_event "09:00").1.eventsFile
        = FileState.snapshot (stWith9.remove_event "09:00").1.events :=
  ⟨by decide, (c7_remove_contract stWith9 "09:00").2.2.1 (by decide)⟩

/-- C8: immediately after `upsert_event`, after `remove_event` of a present
key, and after `clear_events`, the persisted events snapshot equals the
in-memory events mapping (each of these calls runs `save()` synchronously
before returning). -/
theorem c8_persistence_sync : ∀ (st : Storage) (e : Event) (hhmm : String),
    (st.upsert_event e).eventsFile = FileState.snapshot (st.upsert_event e).events
    ∧ (dictMember hhmm st.events = true →
        (st.remove_event hhmm).1.eventsFile
          = FileState.snapshot (st.remove_event hhmm).1.events)
    ∧ (st.clear_events).eventsFile = FileState.snapshot (st.clear_events).events := by
  intro st e hhmm
  refine ⟨rfl, ?_, rfl⟩
  intro h
  simp [Storage.remove_event, h, Storage.save]

/-- C8, witness at a concrete store with the removed key present. -/
theorem c8_persistence_sync_witness :
    dictMember "09:00" stWith9.events = true
    ∧ (stWith9.upsert_event ev9).eventsFile
        = FileState.snapshot (stWith9.upsert_event ev9).events
    ∧ (stWith9.remove_event "09:00").1.eventsFile
        = FileState.snapshot (stWith9.remove_event "09:00").1.events :=
  ⟨by decide, (c8_persistence_sync stWith9 ev9 "09:00").1,
    (c8_persistence_sync stWith9 ev9 "09:00").2.1 (by decide)⟩

/-- C1, counterexample: a tick that raises an error other than
`CancelledError` terminates the loop task instead of being swallowed — and
the concrete `_tick` of this source does raise such an error (its very
first statement after the date check is `self.storage.get_map()`, an
attribute `Storage` does not have). -/
theorem c1_loop_error_counterexample :
    runLoop [TickOutcome.raised (PyError.attributeError "get_map")]
      = LoopResult.crashed (PyError.attributeError "get_map")
    ∧ tick 0 ⟨0, emptyStorage⟩
      = TickResult.raised ⟨0, emptyStorage⟩ (PyError.attributeError "get_map") := by
  decide

/-- C1, amended: the polling loop continues on its cadence only when a tick
completes normally; `asyncio.CancelledError` is the sole exception caught
(and it ends the task silently), while any other error raised inside a tick
propagates and terminates the loop task.  Moreover in this source every
tick raises such an error: `AttributeError` on `storage.get_map` on a
same-day tick, or on `storage.clear` on a date-change tick. -/
theorem c1_loop_error_amended :
    (∀ (e : PyError) (rest : List TickOutcome),
        runLoop (TickOutcome.completed :: rest) = runLoop rest
        ∧ runLoop (TickOutcome.raised e :: rest)
            = (if e = PyError.cancelledError then LoopResult.stoppedSilently
               else LoopResult.crashed e))
    ∧ (∀ (now : Nat) (s : SchedState),
        tick now s =
          (if utcMidnightKey now = s.lastMidnight then
            TickResult.raised s (PyError.attributeError "get_map")
          else
            TickResult.raised { s with lastMidnight := utcMidnightKey now }
              (PyError.attributeError "clear"))) := by
  constructor
  · intro e rest
    refine ⟨rfl, ?_⟩
    cases e <;> simp [runLoop]
  · intro now s
    have hga : storageHasAttr "get_map" = false := by decide
    have hcl : storageHasAttr "clear" = false := by decide
    by_cases h : utcMidnightKey now = s.lastMidnight
    · simp [tick, h, tickLookup, hga]
    · simp [tick, h, tickLookup, hcl]

/-- C2, counterexample: with `now` exactly at today's 09:00:00 and an event
at `09:00` with offset 0, the computed target equals `now` — so it is `≤
now` — yet the source's strict `target_time < now` comparison leaves it
unchanged instead of adding 24 hours. -/
theorem c2_countdown_counterexample :
    combineToday 32400 9 0 = 32400
    ∧ ((combineToday 32400 9 0 : Int) - 0 ≤ (32400 : Int))
    ∧ countdownTarget 32400 9 0 0 = 32400
    ∧ ((countdownTarget 32400 9 0 0 == (32400 : Int) + 86400) = false) := by
  decide

/-- C2, amended: the target instant is `combine(today, T) - d`, rolled
forward by exactly 24 hours when it is already strictly earlier than `now`
(an instant exactly equal to `now` is kept as is and fires immediately);
in particular for `T` strictly in the past the offset-0 target is `T` on
the following day. -/
theorem c2_countdown_amended : ∀ (now h m d : Nat),
    ((combineToday now h m : Int) - (d : Int) < (now : Int) →
       countdownTarget now h m d = (combineToday now h m : Int) - (d : Int) + 86400)
    ∧ ((now : Int) ≤ (combineToday now h m : Int) - (d : Int) →
       countdownTarget now h m d = (combineToday now h m : Int) - (d : Int))
    ∧ (combineToday now h m < now →
       countdownTarget now h m 0
         = ((now / secondsPerDay + 1) * secondsPerDay + h * 3600 + m * 60 : Nat)) := by
  intro now h m d
  refine ⟨?_, ?_, ?_⟩
  · intro hlt
    simp [countdownTarget, hlt, secondsPerDay]
  · intro hle
    have hnlt : ¬ ((combineToday now h m : Int) - (d : Int) < (now : Int)) :=
      not_lt.mpr hle
    simp [countdownTarget, hnlt]
  · intro hlt
    have hlt' : (combineToday now h m : Int) - ((0 : Nat) : Int) < (now : Int) := by
      push_cast
      omega
    have hstep : countdownTarget now h m 0 = (combineToday now h m : Int) + 86400 := by
      simp [countdownTarget, hlt', secondsPerDay]
      exact hlt
    rw [hstep]
    unfold combineToday secondsPerDay
    push_cast
    ring

/-- C2, witness for the amended theorem: event at 09:00 registered at
10:00 the same day rolls to 09:00 of the following day. -/
theorem c2_countdown_amended_witness :
    countdownTarget 36000 9 0 0 = (combineToday 36000 9 0 : Int) - ((0 : Nat) : Int) + 86400 :=
  (c2_countdown_amended 36000 9 0 0).1 (by decide)

/-- C3, counterexample: a zero-offset ping whose target resolution and
reminder send both succeed still leaves the event in the store — the
removal call `self.storage.remove(time)` raises `AttributeError` (the
method `Storage` defines is `remove_event`), so the store still contains
the event afterwards. -/
theorem c3_zero_offset_counterexample :
    ping ctxResolved "09:00" 0 stWith9
      = CmdResult.raised stWith9 (PyError.attributeError "remove")
    ∧ dictMember "09:00" (ping ctxResolved "09:00" 0 stWith9).storageOf.events = true := by
  decide

/-- C3, amended: a zero-offset countdown task never removes its event from
the store — resolution failures (missing config, unresolved target) return
before the removal line, send failures propagate before it, and the
removal call itself raises `AttributeError` because `Storage` has no
`remove` method — so the store is unchanged under every outcome. -/
theorem c3_zero_offset_amended : ∀ (ctx : PingCtx) (time : String)
    (d : Nat) (st : Storage),
    (ping ctx time d st).storageOf = st := by
  intro ctx time d st
  have hrm : storageHasAttr "remove" = false := by decide
  have hsend : ∀ st' : Storage, (pingSend ctx d time st').storageOf = st' := by
    intro st'
    unfold pingSend
    cases ctx.sendOutcome with
    | none =>
      by_cases hd : d = 0
      · simp [hd, hrm, CmdResult.storageOf]
      · simp [hd, CmdResult.storageOf]
    | some e =>
      by_cases hc : isCaughtInPing e <;> simp [hc, CmdResult.storageOf]
  unfold ping
  cases hcfg : ctx.roleConfig with
  | none => rfl
  | some rid =>
    by_cases h0 : rid = 0
    · simp [h0, CmdResult.storageOf]
    · simp only [h0, if_false]
      cases hgr : ctx.getRole rid with
      | some r => exact hsend st
      | none =>
        cases hfm : ctx.fetchMember rid with
        | ok mem => exact hsend st
        | error e =>
          by_cases hc : isCaughtInPing e <;> simp [hc, CmdResult.storageOf]

/-- C4: the date-change tick updates the recorded date but then raises
`AttributeError` at `self.storage.clear()` (the method `Storage` defines
is `clear_events`), so the store is NOT cleared — the unfired event is
still present afterwards and the loop task dies — although the scheduler's
own docstring promises "Clears unfired events at UTC midnight". -/
theorem c4_midnight_reset_bug :
    tick secondsPerDay ⟨0, stWith9⟩
      = TickResult.raised ⟨1, stWith9⟩ (PyError.attributeError "clear")
    ∧ dictMember "09:00" stWith9.events = true := by
  decide

/-- C9: the `listevents` handler calls `self.storage.all()` and the
`addevent` handler calls `self.storage.upsert(event)`; `Storage` defines
`all_events` and `upsert_event` instead, so both commands raise
`AttributeError` — nothing is listed and nothing is stored, while the
handlers' own docstrings and log lines promise listing and adding. -/
theorem c9_list_add_bug :
    list_events stWith9 = ListResult.raised (PyError.attributeError "all")
    ∧ add_event "09:30" "standup" (some 5) emptyStorage
        = CmdResult.raised emptyStorage (PyError.attributeError "upsert") := by
  decide

/-- C10: `_validate_hhmm` accepts the non-zero-padded `"9:30"` (strptime
parses it), but the polling loop's current-minute key
`strftime("%H:%M")` is always a five-character zero-padded rendering, so
it never equals `"9:30"` — an event stored under that key is never matched
by the loop's lookup, hence never fired or removed by it. -/
theorem c10_nonpadded_key_never_matches :
    validate_hhmm "9:30" = true
    ∧ ∀ now : Nat,
        (utcNowHHMM now).length = 5
        ∧ ((utcNowHHMM now == "9:30") = false) := by
  refine ⟨by decide, ?_⟩
  intro now
  have hpad : ∀ n : Nat, (pad2 n).length = 2 := fun n => rfl
  have hlen : (utcNowHHMM now).length = 5 := by
    unfold utcNowHHMM
    rw [String.length_append, String.length_append, hpad, hpad]
    rfl
  refine ⟨hlen, ?_⟩
  have hne : utcNowHHMM now ≠ "9:30" := by
    intro h
    have hl := congrArg String.length h
    rw [hlen] at hl
    exact absurd hl (by decide)
  simpa [beq_eq_false_iff_ne] using hne

end NuttyOwl
